import Mathlib

/-!
# Verification of the stublogs per-tenant state-management subsystem

A shallow embedding, in Lean 4, of the core state-management functions of the
stublogs worker (`src/index.js`): the fixed-window rate limiter, the reactor
identity resolver, the reaction toggle engine and its snapshot, the page-view
counter with its throttled HTTP handler, the paginated comment listing, and
the notification pipeline with its Telegram gating.

Conventions of the embedding:
* The relational store (Cloudflare D1 / SQLite) is modelled per table.  Tables
  with a string primary key become association lists `List (String × row)`
  accessed through `lookupA` / `upsertA` / `deleteA` (the `INSERT … ON
  CONFLICT DO UPDATE` upsert becomes a keyed map update); tables without a
  usable single key (reactions, comments, notifications) are plain row lists.
* JavaScript numbers are embedded as `Int` (timestamps, counters) or `Nat`
  where the source value is a length/count; machine overflow is irrelevant at
  the magnitudes involved.  The JS idiom `Number(x) || d` (`0`/`NaN` falls
  back to `d`) is rendered as `if x = 0 then d else x`.
* JS strings become `String`; `String.prototype.slice(0, n)`, `trim()` and
  `toLowerCase()` become `jsSlice`, `jsTrim` and `jsLower` on the underlying
  `List Char` (for the ASCII data handled here these agree with the JS
  semantics).
* `crypto.subtle.digest("SHA-256", …)` is embedded as an executable SHA-256
  over UTF-8 byte lists, so hash-dependent behaviour can be evaluated on
  concrete inputs by the kernel.
* `Date.now()` and random values (`crypto.getRandomValues`, `Math.random`
  based GC sampling) are passed in as explicit parameters; the fire-and-forget
  GC sweeps are not modelled (they touch no property below).
-/

namespace Stublogs

/-! ## Association-list model of a keyed table -/

/-- Look up the row stored under primary key `k`. -/
def lookupA {α : Type} (s : List (String × α)) (k : String) : Option α :=
  (s.find? (fun p => p.1 == k)).map (fun p => p.2)

/-- `INSERT … ON CONFLICT(key) DO UPDATE`: store exactly one row under `k`. -/
def upsertA {α : Type} (s : List (String × α)) (k : String) (v : α) : List (String × α) :=
  (k, v) :: s.filter (fun p => p.1 != k)

/-- `DELETE … WHERE key = k`. -/
def deleteA {α : Type} (s : List (String × α)) (k : String) : List (String × α) :=
  s.filter (fun p => p.1 != k)

theorem lookupA_nil {α : Type} (k : String) : lookupA ([] : List (String × α)) k = none := rfl

theorem lookupA_cons {α : Type} (p : String × α) (t : List (String × α)) (k : String) :
    lookupA (p :: t) k = if p.1 = k then some p.2 else lookupA t k := by
  by_cases h : p.1 = k
  · simp [lookupA, List.find?_cons_of_pos, h]
  · have h' : ¬ ((fun q : String × α => q.1 == k) p = true) := by simpa using h
    simp [lookupA, List.find?_cons_of_neg _ h', h]

theorem lookupA_filter_ne {α : Type} (s : List (String × α)) (k k' : String) (h : k' ≠ k) :
    lookupA (s.filter (fun p => p.1 != k)) k' = lookupA s k' := by
  induction s with
  | nil => rfl
  | cons p t ih =>
    rw [List.filter_cons]
    by_cases hp : p.1 = k
    · have hcond : (p.1 != k) = false := by simp [hp]
      have hne : ¬ p.1 = k' := by
        rw [hp]; exact fun e => h e.symm
      rw [hcond, lookupA_cons, if_neg hne]
      simpa using ih
    · have hcond : (p.1 != k) = true := by simp [hp]
      rw [hcond, if_pos rfl, lookupA_cons, lookupA_cons]
      by_cases hq : p.1 = k'
      · rw [if_pos hq, if_pos hq]
      · rw [if_neg hq, if_neg hq]; exact ih

theorem lookupA_upsertA_self {α : Type} (s : List (String × α)) (k : String) (v : α) :
    lookupA (upsertA s k v) k = some v := by
  rw [upsertA, lookupA_cons, if_pos rfl]

theorem lookupA_upsertA_ne {α : Type} (s : List (String × α)) (k k' : String) (v : α)
    (h : k' ≠ k) :
    lookupA (upsertA s k v) k' = lookupA s k' := by
  rw [upsertA, lookupA_cons, if_neg (fun e => h e.symm)]
  exact lookupA_filter_ne s k k' h

theorem lookupA_deleteA_self {α : Type} (s : List (String × α)) (k : String) :
    lookupA (deleteA s k) k = none := by
  induction s with
  | nil => rfl
  | cons p t ih =>
    rw [deleteA, List.filter_cons]
    by_cases hp : p.1 = k
    · have hcond : (p.1 != k) = false := by simp [hp]
      rw [hcond]
      simpa [deleteA] using ih
    · have hcond : (p.1 != k) = true := by simp [hp]
      rw [hcond, if_pos rfl, lookupA_cons, if_neg hp]
      simpa [deleteA] using ih

theorem lookupA_deleteA_ne {α : Type} (s : List (String × α)) (k k' : String) (h : k' ≠ k) :
    lookupA (deleteA s k) k' = lookupA s k' :=
  lookupA_filter_ne s k k' h

/-! ## JS string primitives -/

/-- The characters of `l` with leading and trailing whitespace removed:
`String.prototype.trim()` at the character-list level. -/
def trimChars (l : List Char) : List Char :=
  ((l.dropWhile Char.isWhitespace).reverse.dropWhile Char.isWhitespace).reverse

/-- `String.prototype.trim()`. -/
def jsTrim (s : String) : String := String.mk (trimChars s.data)

/-- `String.prototype.toLowerCase()` (basic-latin case mapping). -/
def jsLower (s : String) : String := String.mk (s.data.map Char.toLower)

/-- `String.prototype.slice(0, n)`. -/
def jsSlice (s : String) (n : Nat) : String := String.mk (s.data.take n)

/-! ## SHA-256 (`crypto.subtle.digest`) over UTF-8 byte lists

An executable embedding of the hash primitive, so that hash-dependent control
flow can be evaluated on concrete inputs.  Words are `Nat` truncated to 32
bits. -/

/-- Truncate to 32 bits. -/
def w32 (x : Nat) : Nat := x % 4294967296

/-- Rotate a 32-bit word right by `n` bits. -/
def rotr32 (n x : Nat) : Nat := (x >>> n) ||| (w32 (x <<< (32 - n)))

def ch32 (x y z : Nat) : Nat := (x &&& y) ^^^ ((x ^^^ 4294967295) &&& z)

def maj32 (x y z : Nat) : Nat := (x &&& y) ^^^ (x &&& z) ^^^ (y &&& z)

def bsig0 (x : Nat) : Nat := rotr32 2 x ^^^ rotr32 13 x ^^^ rotr32 22 x

def bsig1 (x : Nat) : Nat := rotr32 6 x ^^^ rotr32 11 x ^^^ rotr32 25 x

def ssig0 (x : Nat) : Nat := rotr32 7 x ^^^ rotr32 18 x ^^^ (x >>> 3)

def ssig1 (x : Nat) : Nat := rotr32 17 x ^^^ rotr32 19 x ^^^ (x >>> 10)

/-- The SHA-256 round constants (FIPS 180-4, written in decimal). -/
def sha256K : List Nat :=
  [1116352408, 1899447441, 3049323471, 3921009573, 961987163, 1508970993,
   2453635748, 2870763221, 3624381080, 310598401, 607225278, 1426881987,
   1925078388, 2162078206, 2614888103, 3248222580, 3835390401, 4022224774,
   264347078, 604807628, 770255983, 1249150122, 1555081692, 1996064986,
   2554220882, 2821834349, 2952996808, 3210313671, 3336571891, 3584528711,
   113926993, 338241895, 666307205, 773529912, 1294757372, 1396182291,
   1695183700, 1986661051, 2177026350, 2456956037, 2730485921, 2820302411,
   3259730800, 3345764771, 3516065817, 3600352804, 4094571909, 275423344,
   430227734, 506948616, 659060556, 883997877, 958139571, 1322822218,
   1537002063, 1747873779, 1955562222, 2024104815, 2227730452, 2361852424,
   2428436474, 2756734187, 3204031479, 3329325298]

/-- The SHA-256 initial state (FIPS 180-4, written in decimal). -/
def sha256H0 : List Nat :=
  [1779033703, 3144134277, 1013904242, 2773480762, 1359893119, 2600822924, 528734635, 1541459225]

/-- 16 big-endian 32-bit words from 64 bytes. -/
def bytesToWords : List Nat → List Nat
  | a :: b :: c :: d :: rest => (a * 16777216 + b * 65536 + c * 256 + d) :: bytesToWords rest
  | _ => []

/-- Extend 16 words to the 64-word message schedule. -/
def sha256Schedule (ws : List Nat) : List Nat :=
  (List.range 48).foldl
    (fun w j =>
      let i := j + 16
      w ++ [w32 (ssig1 (w.getD (i - 2) 0) + w.getD (i - 7) 0 + ssig0 (w.getD (i - 15) 0) +
        w.getD (i - 16) 0)])
    ws

/-- One compression round; the state is `[a,b,c,d,e,f,g,h]`. -/
def sha256Round (st : List Nat) (kw : Nat) : List Nat :=
  match st with
  | [a, b, c, d, e, f, g, h] =>
    let t1 := w32 (h + bsig1 e + ch32 e f g + kw)
    let t2 := w32 (bsig0 a + maj32 a b c)
    [w32 (t1 + t2), a, b, c, w32 (d + t1), e, f, g]
  | other => other

/-- Compress one 64-byte block into the running hash state. -/
def sha256Compress (h : List Nat) (block : List Nat) : List Nat :=
  let sched := sha256Schedule (bytesToWords block)
  let kws := (sha256K.zip sched).map (fun p => w32 (p.1 + p.2))
  let st := kws.foldl sha256Round h
  (h.zip st).map (fun p => w32 (p.1 + p.2))

/-- Split into 64-byte chunks (structural recursion on a fuel bound, so the
kernel can evaluate it). -/
def chunks64Aux : Nat → List Nat → List (List Nat)
  | 0, _ => []
  | _, [] => []
  | fuel + 1, l => l.take 64 :: chunks64Aux fuel (l.drop 64)

def chunks64 (l : List Nat) : List (List Nat) :=
  chunks64Aux l.length l

/-- `width` big-endian bytes of `n`. -/
def beBytes (width n : Nat) : List Nat :=
  (List.range width).map (fun i => (n >>> ((width - 1 - i) * 8)) &&& 255)

/-- SHA-256 padding: `0x80`, zeros to 56 mod 64, then the 64-bit bit length. -/
def sha256Pad (msg : List Nat) : List Nat :=
  let l := msg.length
  let k := (120 - (l + 1) % 64) % 64
  msg ++ [128] ++ List.replicate k 0 ++ beBytes 8 (8 * l)

/-- The SHA-256 digest (32 bytes) of a byte list. -/
def sha256Bytes (msg : List Nat) : List Nat :=
  let padded := sha256Pad msg
  let final := (chunks64 padded).foldl sha256Compress sha256H0
  final.flatMap (beBytes 4)

/-- UTF-8 encoding of one unicode scalar value. -/
def utf8EncodeChar (c : Nat) : List Nat :=
  if c < 128 then [c]
  else if c < 2048 then [192 + c / 64, 128 + c % 64]
  else if c < 65536 then [224 + c / 4096, 128 + (c / 64) % 64, 128 + c % 64]
  else [240 + c / 262144, 128 + (c / 4096) % 64, 128 + (c / 64) % 64, 128 + c % 64]

/-- `new TextEncoder().encode(s)`. -/
def utf8Bytes (s : String) : List Nat :=
  s.data.flatMap (fun c => utf8EncodeChar c.toNat)

def hexDigitChar (n : Nat) : Char :=
  if n < 10 then Char.ofNat (48 + n) else Char.ofNat (87 + n)

/-- Lowercase hex rendering of a byte list. -/
def bytesToHex (bytes : List Nat) : String :=
  String.mk (bytes.flatMap (fun b => [hexDigitChar (b / 16), hexDigitChar (b % 16)]))

/-- `sha256Hex(value)` from the source: UTF-8 encode, digest, hex. -/
def sha256Hex (s : String) : String :=
  bytesToHex (sha256Bytes (utf8Bytes s))

/-! ## Rate limiter (`consumeRateLimit`, `clearRateLimit`) -/

/-- One row of the `rate_limits` table. -/
structure RateRow where
  windowStartMs : Int
  attempts : Int
  updatedAtMs : Int
deriving DecidableEq

/-- The `rate_limits` table, keyed by `rate_key`. -/
abbrev RateStore := List (String × RateRow)

/-- The result object returned by `consumeRateLimit`. -/
structure RateLimitResult where
  allowed : Bool
  attempts : Int
  remaining : Int
  retryAfterMs : Int
deriving DecidableEq

/-- `Math.max(Number(windowMs) || 60_000, 1_000)`. -/
def safeWindow (windowMs : Int) : Int :=
  max (if windowMs = 0 then 60000 else windowMs) 1000

/-- `Math.max(Number(maxAttempts) || 1, 1)`. -/
def safeMax (maxAttempts : Int) : Int :=
  max (if maxAttempts = 0 then 1 else maxAttempts) 1

/-- `consumeRateLimit(env, rateKey, windowMs, maxAttempts)`: fixed-window
counter.  Returns the caller-visible result and the updated `rate_limits`
table.  `nowMs` stands for `Date.now()`. -/
def consumeRateLimit (store : RateStore) (nowMs : Int) (rateKey : String)
    (windowMs maxAttempts : Int) : RateLimitResult × RateStore :=
  let safeKey := jsSlice rateKey 180
  let safeWindowMs := safeWindow windowMs
  let safeMaxAttempts := safeMax maxAttempts
  let existing := lookupA store safeKey
  let windowStartMs : Int := (existing.map RateRow.windowStartMs).getD 0
  let attempts : Int := (existing.map RateRow.attempts).getD 0
  if existing.isSome = true ∧ nowMs - windowStartMs < safeWindowMs then
    if safeMaxAttempts ≤ attempts then
      ({ allowed := false, attempts := attempts, remaining := 0,
         retryAfterMs := max (safeWindowMs - (nowMs - windowStartMs)) 1000 }, store)
    else
      ({ allowed := true, attempts := attempts + 1,
         remaining := max (safeMaxAttempts - (attempts + 1)) 0, retryAfterMs := 0 },
       upsertA store safeKey
         { windowStartMs := windowStartMs, attempts := attempts + 1, updatedAtMs := nowMs })
  else
    ({ allowed := true, attempts := 1,
       remaining := max (safeMaxAttempts - 1) 0, retryAfterMs := 0 },
     upsertA store safeKey { windowStartMs := nowMs, attempts := 1, updatedAtMs := nowMs })

/-- `clearRateLimit(env, rateKey)`: delete the window row (no-op on an empty
key, which is falsy in JS). -/
def clearRateLimit (store : RateStore) (rateKey : String) : RateStore :=
  if rateKey = "" then store else deleteA store (jsSlice rateKey 180)

/-- Branch equation: no current row (or any state reached through an absent
lookup) resets the window. -/
theorem consumeRateLimit_fresh (store : RateStore) (nowMs : Int) (rateKey : String)
    (windowMs maxAttempts : Int) (h : lookupA store (jsSlice rateKey 180) = none) :
    consumeRateLimit store nowMs rateKey windowMs maxAttempts =
      ({ allowed := true, attempts := 1, remaining := max (safeMax maxAttempts - 1) 0,
         retryAfterMs := 0 },
       upsertA store (jsSlice rateKey 180)
         { windowStartMs := nowMs, attempts := 1, updatedAtMs := nowMs }) := by
  simp [consumeRateLimit, h]

/-- Branch equation: row present, window still open, attempts exhausted. -/
theorem consumeRateLimit_denied (store : RateStore) (nowMs : Int) (rateKey : String)
    (windowMs maxAttempts : Int) (row : RateRow)
    (h : lookupA store (jsSlice rateKey 180) = some row)
    (hwin : nowMs - row.windowStartMs < safeWindow windowMs)
    (hmax : safeMax maxAttempts ≤ row.attempts) :
    consumeRateLimit store nowMs rateKey windowMs maxAttempts =
      ({ allowed := false, attempts := row.attempts, remaining := 0,
         retryAfterMs := max (safeWindow windowMs - (nowMs - row.windowStartMs)) 1000 },
       store) := by
  simp [consumeRateLimit, h, hwin, hmax]

/-- Branch equation: row present, window still open, attempts below the cap. -/
theorem consumeRateLimit_incr (store : RateStore) (nowMs : Int) (rateKey : String)
    (windowMs maxAttempts : Int) (row : RateRow)
    (h : lookupA store (jsSlice rateKey 180) = some row)
    (hwin : nowMs - row.windowStartMs < safeWindow windowMs)
    (hlt : row.attempts < safeMax maxAttempts) :
    consumeRateLimit store nowMs rateKey windowMs maxAttempts =
      ({ allowed := true, attempts := row.attempts + 1,
         remaining := max (safeMax maxAttempts - (row.attempts + 1)) 0, retryAfterMs := 0 },
       upsertA store (jsSlice rateKey 180)
         { windowStartMs := row.windowStartMs, attempts := row.attempts + 1,
           updatedAtMs := nowMs }) := by
  simp [consumeRateLimit, h, hwin, not_le.mpr hlt]

/-- Branch equation: row present but the window has expired. -/
theorem consumeRateLimit_expired (store : RateStore) (nowMs : Int) (rateKey : String)
    (windowMs maxAttempts : Int) (row : RateRow)
    (h : lookupA store (jsSlice rateKey 180) = some row)
    (hwin : safeWindow windowMs ≤ nowMs - row.windowStartMs) :
    consumeRateLimit store nowMs rateKey windowMs maxAttempts =
      ({ allowed := true, attempts := 1, remaining := max (safeMax maxAttempts - 1) 0,
         retryAfterMs := 0 },
       upsertA store (jsSlice rateKey 180)
         { windowStartMs := nowMs, attempts := 1, updatedAtMs := nowMs }) := by
  simp [consumeRateLimit, h, not_lt.mpr hwin]

/-- Serial `consume` calls on one key: thread the store through a list of call
times. -/
def consumeSeq (store : RateStore) (rateKey : String) (windowMs maxAttempts : Int) :
    List Int → List RateLimitResult × RateStore
  | [] => ([], store)
  | t :: ts =>
    let step := consumeRateLimit store t rateKey windowMs maxAttempts
    let rest := consumeSeq step.2 rateKey windowMs maxAttempts ts
    (step.1 :: rest.1, rest.2)

/-- Invariant: every stored `rate_limits` row has `attempts ≥ 1`. -/
def RateStoreOK (s : RateStore) : Prop :=
  ∀ k row, lookupA s k = some row → 1 ≤ row.attempts

theorem RateStoreOK_nil : RateStoreOK [] := by
  intro k row h
  simp [lookupA] at h

theorem RateStoreOK_upsertA (s : RateStore) (k : String) (v : RateRow)
    (hs : RateStoreOK s) (hv : 1 ≤ v.attempts) : RateStoreOK (upsertA s k v) := by
  intro k' row hrow
  by_cases h : k' = k
  · subst h
    rw [lookupA_upsertA_self] at hrow
    cases hrow
    exact hv
  · rw [lookupA_upsertA_ne s k k' v h] at hrow
    exact hs k' row hrow

theorem RateStoreOK_deleteA (s : RateStore) (k : String) (hs : RateStoreOK s) :
    RateStoreOK (deleteA s k) := by
  intro k' row hrow
  by_cases h : k' = k
  · subst h
    rw [lookupA_deleteA_self] at hrow
    cases hrow
  · rw [lookupA_deleteA_ne s k k' h] at hrow
    exact hs k' row hrow

theorem RateStoreOK_consume (s : RateStore) (now : Int) (k : String) (w m : Int)
    (hs : RateStoreOK s) : RateStoreOK (consumeRateLimit s now k w m).2 := by
  rcases hl : lookupA s (jsSlice k 180) with _ | row
  · rw [consumeRateLimit_fresh s now k w m hl]
    exact RateStoreOK_upsertA s _ _ hs (by norm_num)
  · by_cases hwin : now - row.windowStartMs < safeWindow w
    · by_cases hmax : safeMax m ≤ row.attempts
      · rw [consumeRateLimit_denied s now k w m row hl hwin hmax]
        exact hs
      · rw [consumeRateLimit_incr s now k w m row hl hwin (not_le.mp hmax)]
        have h1 : 1 ≤ row.attempts := hs _ row hl
        exact RateStoreOK_upsertA s _ _ hs (by simp; omega)
    · rw [consumeRateLimit_expired s now k w m row hl (not_lt.mp hwin)]
      exact RateStoreOK_upsertA s _ _ hs (by norm_num)

theorem RateStoreOK_clear (s : RateStore) (k : String) (hs : RateStoreOK s) :
    RateStoreOK (clearRateLimit s k) := by
  rw [clearRateLimit]
  by_cases h : k = ""
  · rw [if_pos h]; exact hs
  · rw [if_neg h]; exact RateStoreOK_deleteA s _ hs

/-- The operations that write to the `rate_limits` table. -/
inductive RateOp where
  | consume (nowMs : Int) (rateKey : String) (windowMs maxAttempts : Int)
  | clear (rateKey : String)

/-- Run a sequence of rate-limiter operations against a store. -/
def runRateOps : List RateOp → RateStore → RateStore
  | [], s => s
  | RateOp.consume now k w m :: ops, s => runRateOps ops (consumeRateLimit s now k w m).2
  | RateOp.clear k :: ops, s => runRateOps ops (clearRateLimit s k)

theorem RateStoreOK_runRateOps (ops : List RateOp) (s : RateStore) (hs : RateStoreOK s) :
    RateStoreOK (runRateOps ops s) := by
  induction ops generalizing s with
  | nil => exact hs
  | cons op ops ih =>
    cases op with
    | consume now k w m => exact ih _ (RateStoreOK_consume s now k w m hs)
    | clear k => exact ih _ (RateStoreOK_clear s k hs)

/-- C8: for every `rate_limits` row, while its window is open the stored
`attempts` value is at least 1: every write performed by `consumeRateLimit`
either resets the window with `attempts = 1` or increments the stored value,
so every store reachable from the empty table through `consume`/`clear`
operations — in particular every open window — holds `attempts ≥ 1`, never 0. -/
theorem rateLimit_attempts_invariant (ops : List RateOp) :
    RateStoreOK (runRateOps ops []) :=
  RateStoreOK_runRateOps ops [] RateStoreOK_nil

/-- C1: starting from a key with no stored window row, with
`windowMs = 1000` and `maxAttempts = 3`, four serial calls inside the window
give `allowed` = true, true, true, false — the fourth with
`retryAfterMs = max (1000 - (t3 - t0)) 1000 > 0` — and a fifth call issued
once `windowMs` has elapsed since the window start resets the window and
returns `allowed = true` with `attempts = 1`. -/
theorem rateLimit_window_scenario (s0 : RateStore) (k : String) (t0 t1 t2 t3 t4 : Int)
    (h0 : lookupA s0 (jsSlice k 180) = none)
    (hw1 : t1 - t0 < 1000) (hw2 : t2 - t0 < 1000) (hw3 : t3 - t0 < 1000)
    (h4 : 1000 ≤ t4 - t0) :
    (consumeSeq s0 k 1000 3 [t0, t1, t2, t3, t4]).1 =
      [{ allowed := true, attempts := 1, remaining := 2, retryAfterMs := 0 },
       { allowed := true, attempts := 2, remaining := 1, retryAfterMs := 0 },
       { allowed := true, attempts := 3, remaining := 0, retryAfterMs := 0 },
       { allowed := false, attempts := 3, remaining := 0,
         retryAfterMs := max (1000 - (t3 - t0)) 1000 },
       { allowed := true, attempts := 1, remaining := 2, retryAfterMs := 0 }] ∧
    0 < max (1000 - (t3 - t0)) 1000 := by
  have hsw : safeWindow 1000 = 1000 := rfl
  have hsm : safeMax 3 = 3 := rfl
  have e1 : consumeRateLimit s0 t0 k 1000 3 =
      ({ allowed := true, attempts := 1, remaining := 2, retryAfterMs := 0 },
       upsertA s0 (jsSlice k 180) { windowStartMs := t0, attempts := 1, updatedAtMs := t0 }) := by
    rw [consumeRateLimit_fresh s0 t0 k 1000 3 h0, hsm]
    norm_num
  have l1 : lookupA
      (upsertA s0 (jsSlice k 180) { windowStartMs := t0, attempts := 1, updatedAtMs := t0 })
      (jsSlice k 180) = some { windowStartMs := t0, attempts := 1, updatedAtMs := t0 } :=
    lookupA_upsertA_self _ _ _
  have e2 : consumeRateLimit
      (upsertA s0 (jsSlice k 180) { windowStartMs := t0, attempts := 1, updatedAtMs := t0 })
      t1 k 1000 3 =
      ({ allowed := true, attempts := 2, remaining := 1, retryAfterMs := 0 },
       upsertA
         (upsertA s0 (jsSlice k 180) { windowStartMs := t0, attempts := 1, updatedAtMs := t0 })
         (jsSlice k 180) { windowStartMs := t0, attempts := 2, updatedAtMs := t1 }) := by
    rw [consumeRateLimit_incr _ t1 k 1000 3 _ l1 (by rw [hsw]; exact hw1)
      (by rw [hsm]; norm_num), hsm]
    norm_num
  have l2 : lookupA
      (upsertA
        (upsertA s0 (jsSlice k 180) { windowStartMs := t0, attempts := 1, updatedAtMs := t0 })
        (jsSlice k 180) { windowStartMs := t0, attempts := 2, updatedAtMs := t1 })
      (jsSlice k 180) = some { windowStartMs := t0, attempts := 2, updatedAtMs := t1 } :=
    lookupA_upsertA_self _ _ _
  have e3 : consumeRateLimit
      (upsertA
        (upsertA s0 (jsSlice k 180) { windowStartMs := t0, attempts := 1, updatedAtMs := t0 })
        (jsSlice k 180) { windowStartMs := t0, attempts := 2, updatedAtMs := t1 })
      t2 k 1000 3 =
      ({ allowed := true, attempts := 3, remaining := 0, retryAfterMs := 0 },
       upsertA
         (upsertA
           (upsertA s0 (jsSlice k 180) { windowStartMs := t0, attempts := 1, updatedAtMs := t0 })
           (jsSlice k 180) { windowStartMs := t0, attempts := 2, updatedAtMs := t1 })
         (jsSlice k 180) { windowStartMs := t0, attempts := 3, updatedAtMs := t2 }) := by
    rw [consumeRateLimit_incr _ t2 k 1000 3 _ l2 (by rw [hsw]; exact hw2)
      (by rw [hsm]; norm_num), hsm]
    norm_num
  have l3 : lookupA
      (upsertA
        (upsertA
          (upsertA s0 (jsSlice k 180) { windowStartMs := t0, attempts := 1, updatedAtMs := t0 })
          (jsSlice k 180) { windowStartMs := t0, attempts := 2, updatedAtMs := t1 })
        (jsSlice k 180) { windowStartMs := t0, attempts := 3, updatedAtMs := t2 })
      (jsSlice k 180) = some { windowStartMs := t0, attempts := 3, updatedAtMs := t2 } :=
    lookupA_upsertA_self _ _ _
  have e4 : consumeRateLimit
      (upsertA
        (upsertA
          (upsertA s0 (jsSlice k 180) { windowStartMs := t0, attempts := 1, updatedAtMs := t0 })
          (jsSlice k 180) { windowStartMs := t0, attempts := 2, updatedAtMs := t1 })
        (jsSlice k 180) { windowStartMs := t0, attempts := 3, updatedAtMs := t2 })
      t3 k 1000 3 =
      ({ allowed := false, attempts := 3, remaining := 0,
         retryAfterMs := max (1000 - (t3 - t0)) 1000 },
       upsertA
         (upsertA
           (upsertA s0 (jsSlice k 180) { windowStartMs := t0, attempts := 1, updatedAtMs := t0 })
           (jsSlice k 180) { windowStartMs := t0, attempts := 2, updatedAtMs := t1 })
         (jsSlice k 180) { windowStartMs := t0, attempts := 3, updatedAtMs := t2 }) := by
    rw [consumeRateLimit_denied _ t3 k 1000 3 _ l3 (by rw [hsw]; exact hw3) (by rw [hsm]), hsw]
  have e5 : consumeRateLimit
      (upsertA
        (upsertA
          (upsertA s0 (jsSlice k 180) { windowStartMs := t0, attempts := 1, updatedAtMs := t0 })
          (jsSlice k 180) { windowStartMs := t0, attempts := 2, updatedAtMs := t1 })
        (jsSlice k 180) { windowStartMs := t0, attempts := 3, updatedAtMs := t2 })
      t4 k 1000 3 =
      ({ allowed := true, attempts := 1, remaining := 2, retryAfterMs := 0 },
       upsertA
         (upsertA
           (upsertA
             (upsertA s0 (jsSlice k 180) { windowStartMs := t0, attempts := 1, updatedAtMs := t0 })
             (jsSlice k 180) { windowStartMs := t0, attempts := 2, updatedAtMs := t1 })
           (jsSlice k 180) { windowStartMs := t0, attempts := 3, updatedAtMs := t2 })
         (jsSlice k 180) { windowStartMs := t4, attempts := 1, updatedAtMs := t4 }) := by
    rw [consumeRateLimit_expired _ t4 k 1000 3 _ l3 (by rw [hsw]; exact h4), hsm]
    norm_num
  refine ⟨?_, lt_of_lt_of_le (by norm_num) (le_max_right _ _)⟩
  simp only [consumeSeq, e1, e2, e3, e4, e5]

/-- Closed witness for `rateLimit_window_scenario` at a concrete key, store
and call times. -/
theorem rateLimit_window_scenario_witness :
    lookupA ([] : RateStore) (jsSlice "1.2.3.4:alice:login" 180) = none ∧
    ((consumeSeq [] "1.2.3.4:alice:login" 1000 3 [0, 100, 200, 900, 1000]).1 =
      [{ allowed := true, attempts := 1, remaining := 2, retryAfterMs := 0 },
       { allowed := true, attempts := 2, remaining := 1, retryAfterMs := 0 },
       { allowed := true, attempts := 3, remaining := 0, retryAfterMs := 0 },
       { allowed := false, attempts := 3, remaining := 0,
         retryAfterMs := max (1000 - ((900 : Int) - 0)) 1000 },
       { allowed := true, attempts := 1, remaining := 2, retryAfterMs := 0 }] ∧
      0 < max (1000 - ((900 : Int) - 0)) 1000) :=
  ⟨rfl, rateLimit_window_scenario [] "1.2.3.4:alice:login" 0 100 200 900 1000 rfl
    (by decide) (by decide) (by decide) (by decide)⟩

/-- C10: `consume` and `clear` act on the key truncated to its first 180
characters — two keys agreeing on that prefix read and update the same stored
window row, and `clear` on either deletes that shared row. -/
theorem rateLimit_key_truncation (s : RateStore) (now : Int) (k1 k2 : String) (w m : Int)
    (h : k1.data.take 180 = k2.data.take 180) :
    consumeRateLimit s now k1 w m = consumeRateLimit s now k2 w m ∧
    clearRateLimit s k1 = clearRateLimit s k2 := by
  have hslice : jsSlice k1 180 = jsSlice k2 180 := by
    simp only [jsSlice, h]
  constructor
  · simp only [consumeRateLimit, hslice]
  · have haux : ∀ q : String, q.data.take 180 = [] → q = "" := by
      intro q hq
      rcases List.take_eq_nil_iff.mp hq with h' | h'
      · exact absurd h' (by norm_num)
      · cases q with
        | mk d => subst h'; rfl
    have hempty : (k1 = "") ↔ (k2 = "") := by
      constructor
      · intro h1
        apply haux
        rw [← h, h1]
        rfl
      · intro h2
        apply haux
        rw [h, h2]
        rfl
    rw [clearRateLimit, clearRateLimit]
    by_cases h1 : k1 = ""
    · rw [if_pos h1, if_pos (hempty.mp h1)]
    · rw [if_neg h1, if_neg (fun h2 => h1 (hempty.mpr h2)), hslice]

set_option maxRecDepth 4000 in
/-- Closed witness for `rateLimit_key_truncation`: two distinct 181/182
character keys sharing their first 180 characters hit the same row. -/
theorem rateLimit_key_truncation_witness :
    ((String.mk (List.replicate 181 'a')).data.take 180 =
      (String.mk (List.replicate 182 'a')).data.take 180) ∧
    (consumeRateLimit [] 0 (String.mk (List.replicate 181 'a')) 1000 3 =
      consumeRateLimit [] 0 (String.mk (List.replicate 182 'a')) 1000 3 ∧
     clearRateLimit [] (String.mk (List.replicate 181 'a')) =
      clearRateLimit [] (String.mk (List.replicate 182 'a'))) :=
  ⟨by decide, rateLimit_key_truncation [] 0 _ _ 1000 3 (by decide)⟩

/-! ## Reaction engine -/

/-- One entry of the `REACTION_PRESETS` vocabulary. -/
structure ReactionPreset where
  key : String
  icon : String
  label : String
deriving DecidableEq

/-- The fixed reaction vocabulary, in declaration order. -/
def REACTION_PRESETS : List ReactionPreset :=
  [{ key := "lion", icon := "🦁", label := "獅王" },
   { key := "dragon", icon := "🐉", label := "金龍" },
   { key := "hummingbird", icon := "🐦", label := "蜂鳥" },
   { key := "deer", icon := "🦌", label := "冰鹿" },
   { key := "eagle", icon := "🦅", label := "蒼鷹" },
   { key := "wolf", icon := "🐺", label := "紫狼" },
   { key := "unicorn", icon := "🦄", label := "獨角獸" },
   { key := "phoenix", icon := "🐦‍🔥", label := "鳳凰" },
   { key := "orca", icon := "🐋", label := "逆戟鯨" },
   { key := "fire", icon := "🔥", label := "燃" },
   { key := "rocket", icon := "🚀", label := "起飛" },
   { key := "spark", icon := "✨", label := "閃亮" },
   { key := "mindblown", icon := "🤯", label := "炸裂" },
   { key := "respect", icon := "🫶", label := "超讚" }]

/-- `REACTION_PRESET_MAP.has(key)`. -/
def isReactionPresetKey (key : String) : Bool :=
  REACTION_PRESETS.any (fun p => p.key == key)

/-- `REACTION_PRESET_MAP.get(key)`. -/
def reactionPresetFor (key : String) : Option ReactionPreset :=
  REACTION_PRESETS.find? (fun p => p.key == key)

/-- `sanitizeReactionKey(value)`. -/
def sanitizeReactionKey (v : String) : String :=
  let key := jsLower (jsTrim v)
  if isReactionPresetKey key then key else ""

/-- `/^[a-f0-9]$/` on one character. -/
def isLowerHexChar (c : Char) : Bool :=
  (('0' ≤ c) && (c ≤ '9')) || (('a' ≤ c) && (c ≤ 'f'))

/-- `sanitizeActorToken(value)`: trim, lowercase, and require 20–64 lowercase
hex characters. -/
def sanitizeActorToken (v : String) : String :=
  let token := jsLower (jsTrim v)
  if token = "" then ""
  else if 20 ≤ token.data.length ∧ token.data.length ≤ 64 ∧ token.data.all isLowerHexChar
  then jsSlice token 64
  else ""

/-- One row of the `reactions` table. -/
structure ReactionRow where
  siteId : Int
  postSlug : String
  reactionKey : String
  actorToken : String
  createdAt : String
deriving DecidableEq

/-- The `reactions` table. -/
abbrev ReactionStore := List ReactionRow

/-- The `WHERE site_id = ? AND post_slug = ? AND reaction_key = ? AND
actor_token = ?` predicate. -/
def reactionMatches (siteId : Int) (postSlug reactionKey actorToken : String)
    (r : ReactionRow) : Bool :=
  (r.siteId == siteId) && (r.postSlug == postSlug) &&
  (r.reactionKey == reactionKey) && (r.actorToken == actorToken)

/-- `togglePostReaction(env, siteId, postSlug, reactionKey, actorToken)`:
returns the `active` flag and the updated `reactions` table. -/
def togglePostReaction (db : ReactionStore) (siteId : Int)
    (postSlug reactionKey actorToken nowIso : String) : Bool × ReactionStore :=
  let nk := sanitizeReactionKey reactionKey
  let nt := sanitizeActorToken actorToken
  if nk = "" ∨ nt = "" then (false, db)
  else if (db.find? (reactionMatches siteId postSlug nk nt)).isSome then
    (false, db.filter (fun r => !(reactionMatches siteId postSlug nk nt r)))
  else
    (true, db ++ [{ siteId := siteId, postSlug := postSlug, reactionKey := nk,
                    actorToken := nt, createdAt := nowIso }])

/-- Rows of the `reactions` table for one post. -/
def rowsFor (db : ReactionStore) (siteId : Int) (postSlug : String) : ReactionStore :=
  db.filter (fun r => (r.siteId == siteId) && (r.postSlug == postSlug))

/-- First-appearance deduplication: the distinct `GROUP BY reaction_key`
groups. -/
def dedupFirst (l : List String) : List String :=
  l.foldl (fun acc k => if acc.contains k then acc else acc ++ [k]) []

/-- The `SELECT reaction_key, COUNT(*) … GROUP BY reaction_key` result folded
into the `countsMap` (invalid keys are skipped; `Map.set` overwrites). -/
def reactionCountsMap (db : ReactionStore) (siteId : Int) (postSlug : String) :
    List (String × Int) :=
  let rows := rowsFor db siteId postSlug
  (dedupFirst (rows.map (fun r => r.reactionKey))).foldl
    (fun m k =>
      let sk := sanitizeReactionKey k
      if sk = "" then m
      else upsertA m sk (Int.ofNat (rows.countP (fun r => r.reactionKey == k))))
    []

/-- One `items` element of the reaction snapshot. -/
structure SnapshotItem where
  key : String
  icon : String
  label : String
  count : Int
  selected : Bool
deriving DecidableEq

/-- A preset joined with its count, selection flag and declaration index
(`orderIndex`), before the presentation sort. -/
structure SnapshotEntry where
  key : String
  icon : String
  label : String
  orderIndex : Nat
  count : Int
  selected : Bool
deriving DecidableEq

/-- The snapshot value returned to callers. -/
structure ReactionSnapshot where
  items : List SnapshotItem
  total : Int
  selectedKeys : List String
deriving DecidableEq

/-- The JS sort comparator (`right.count - left.count`, ties by
`left.orderIndex - right.orderIndex`) as the order it induces. -/
def snapshotEntryLE (a b : SnapshotEntry) : Prop :=
  b.count < a.count ∨ (a.count = b.count ∧ a.orderIndex ≤ b.orderIndex)

instance : DecidableRel snapshotEntryLE := fun a b =>
  show Decidable (b.count < a.count ∨ (a.count = b.count ∧ a.orderIndex ≤ b.orderIndex)) from
    inferInstance

instance : IsTotal SnapshotEntry snapshotEntryLE where
  total a b := by
    unfold snapshotEntryLE
    omega

instance : IsTrans SnapshotEntry snapshotEntryLE where
  trans a b c hab hbc := by
    unfold snapshotEntryLE at hab hbc ⊢
    omega

/-- The presets joined with counts and selection, in declaration order
(the array built inside `buildReactionSnapshot` before `.sort`). -/
def snapshotEntries (countsByKey : List (String × Int)) (selectedKeys : List String) :
    List SnapshotEntry :=
  let normalizedSelected := (selectedKeys.map sanitizeReactionKey).filter (fun k => k != "")
  REACTION_PRESETS.enum.map (fun p =>
    { key := p.2.key, icon := p.2.icon, label := p.2.label, orderIndex := p.1,
      count := max ((lookupA countsByKey p.2.key).getD 0) 0,
      selected := normalizedSelected.contains p.2.key })

/-- Drop the `orderIndex` column (the final `.map` of the source). -/
def entryToItem (e : SnapshotEntry) : SnapshotItem :=
  { key := e.key, icon := e.icon, label := e.label, count := e.count, selected := e.selected }

/-- `buildReactionSnapshot(countsByKey, selectedKeys)`. -/
def buildReactionSnapshot (countsByKey : List (String × Int)) (selectedKeys : List String) :
    ReactionSnapshot :=
  let sorted := List.insertionSort snapshotEntryLE (snapshotEntries countsByKey selectedKeys)
  let items := sorted.map entryToItem
  { items := items,
    total := items.foldl (fun s i => s + i.count) 0,
    selectedKeys := (items.filter (fun i => i.selected)).map (fun i => i.key) }

/-- `listPostReactionSnapshot(env, siteId, postSlug, actorToken)`. -/
def listPostReactionSnapshot (db : ReactionStore) (siteId : Int)
    (postSlug actorToken : String) : ReactionSnapshot :=
  let countsMap := reactionCountsMap db siteId postSlug
  let normalizedActorToken := sanitizeActorToken actorToken
  let selected :=
    if normalizedActorToken = "" then []
    else (((rowsFor db siteId postSlug).filter
            (fun r => r.actorToken == normalizedActorToken)).map
          (fun r => r.reactionKey)).map sanitizeReactionKey |>.filter (fun k => k != "")
  buildReactionSnapshot countsMap selected

/-- C7: a reaction key outside the preset vocabulary (after trimming and
lowercasing) is rejected before any store access: the toggle returns an
inactive result and the `reactions` table is unchanged. -/
theorem reaction_invalid_key_rejected (db : ReactionStore) (siteId : Int)
    (postSlug reactionKey actorToken nowIso : String)
    (hk : isReactionPresetKey (jsLower (jsTrim reactionKey)) = false) :
    togglePostReaction db siteId postSlug reactionKey actorToken nowIso = (false, db) := by
  have hempty : sanitizeReactionKey reactionKey = "" := by
    rw [sanitizeReactionKey]
    simp [hk]
  simp [togglePostReaction, hempty]

/-- Closed witness for `reaction_invalid_key_rejected` at the unknown key
`"banana"`. -/
theorem reaction_invalid_key_rejected_witness :
    isReactionPresetKey (jsLower (jsTrim "banana")) = false ∧
    togglePostReaction [] 7 "intro" "banana" "aaaaaaaaaaaaaaaaaaaa" "2024-01-01" = (false, []) :=
  ⟨by decide,
   reaction_invalid_key_rejected [] 7 "intro" "banana" "aaaaaaaaaaaaaaaaaaaa" "2024-01-01"
     (by decide)⟩

/-- C2: with a preset reaction key, a valid actor token, and no pre-existing
row for the tuple, two successive toggles return `active = true` then
`active = false`, restore the `reactions` table exactly, and leave the
snapshot — in particular the aggregate count of that key — at its pre-toggle
value. -/
theorem reaction_toggle_roundtrip (db : ReactionStore) (siteId : Int)
    (postSlug reactionKey actorToken now1 now2 : String)
    (hk : sanitizeReactionKey reactionKey ≠ "")
    (ht : sanitizeActorToken actorToken ≠ "")
    (habs : db.find? (reactionMatches siteId postSlug (sanitizeReactionKey reactionKey)
      (sanitizeActorToken actorToken)) = none) :
    (togglePostReaction db siteId postSlug reactionKey actorToken now1).1 = true ∧
    (togglePostReaction (togglePostReaction db siteId postSlug reactionKey actorToken now1).2
      siteId postSlug reactionKey actorToken now2).1 = false ∧
    (togglePostReaction (togglePostReaction db siteId postSlug reactionKey actorToken now1).2
      siteId postSlug reactionKey actorToken now2).2 = db ∧
    listPostReactionSnapshot
      (togglePostReaction (togglePostReaction db siteId postSlug reactionKey actorToken now1).2
        siteId postSlug reactionKey actorToken now2).2 siteId postSlug actorToken =
      listPostReactionSnapshot db siteId postSlug actorToken := by
  have hcond : ¬ (sanitizeReactionKey reactionKey = "" ∨ sanitizeActorToken actorToken = "") := by
    rintro (h | h)
    · exact hk h
    · exact ht h
  set row : ReactionRow :=
    { siteId := siteId, postSlug := postSlug, reactionKey := sanitizeReactionKey reactionKey,
      actorToken := sanitizeActorToken actorToken, createdAt := now1 } with hrowdef
  have hrowmatch : reactionMatches siteId postSlug (sanitizeReactionKey reactionKey)
      (sanitizeActorToken actorToken) row = true := by
    rw [hrowdef]
    simp [reactionMatches]
  have e1 : togglePostReaction db siteId postSlug reactionKey actorToken now1 =
      (true, db ++ [row]) := by
    rw [togglePostReaction]
    simp only [if_neg hcond, habs, Option.isSome_none, Bool.false_eq_true, if_false]
  have hfind2 : (db ++ [row]).find?
      (reactionMatches siteId postSlug (sanitizeReactionKey reactionKey)
        (sanitizeActorToken actorToken)) = some row := by
    rw [List.find?_append, habs]
    simp [List.find?, hrowmatch]
  have hclean : ∀ r ∈ db, reactionMatches siteId postSlug (sanitizeReactionKey reactionKey)
      (sanitizeActorToken actorToken) r = false := by
    intro r hr
    have := List.find?_eq_none.mp habs r hr
    simpa using this
  have hdbkeep : db.filter (fun r => !(reactionMatches siteId postSlug
      (sanitizeReactionKey reactionKey) (sanitizeActorToken actorToken) r)) = db := by
    apply List.filter_eq_self.mpr
    intro r hr
    simp [hclean r hr]
  have hdrop : ([row] : ReactionStore).filter
      (fun r => !(reactionMatches siteId postSlug (sanitizeReactionKey reactionKey)
        (sanitizeActorToken actorToken) r)) = [] := by
    simp [List.filter, hrowmatch]
  have e2 : togglePostReaction (db ++ [row]) siteId postSlug reactionKey actorToken now2 =
      (false, db) := by
    rw [togglePostReaction]
    simp only [if_neg hcond, hfind2, Option.isSome_some, if_true]
    rw [List.filter_append, hdbkeep, hdrop, List.append_nil]
  refine ⟨?_, ?_, ?_, ?_⟩ <;> simp only [e1, e2]

/-- Closed witness for `reaction_toggle_roundtrip` on an empty table. -/
theorem reaction_toggle_roundtrip_witness :
    (sanitizeReactionKey "lion" ≠ "" ∧ sanitizeActorToken "aaaaaaaaaaaaaaaaaaaa" ≠ "" ∧
      ([] : ReactionStore).find? (reactionMatches 1 "intro" (sanitizeReactionKey "lion")
        (sanitizeActorToken "aaaaaaaaaaaaaaaaaaaa")) = none) ∧
    ((togglePostReaction [] 1 "intro" "lion" "aaaaaaaaaaaaaaaaaaaa" "t1").1 = true ∧
     (togglePostReaction (togglePostReaction [] 1 "intro" "lion" "aaaaaaaaaaaaaaaaaaaa" "t1").2
       1 "intro" "lion" "aaaaaaaaaaaaaaaaaaaa" "t2").1 = false ∧
     (togglePostReaction (togglePostReaction [] 1 "intro" "lion" "aaaaaaaaaaaaaaaaaaaa" "t1").2
       1 "intro" "lion" "aaaaaaaaaaaaaaaaaaaa" "t2").2 = [] ∧
     listPostReactionSnapshot
       (togglePostReaction (togglePostReaction [] 1 "intro" "lion" "aaaaaaaaaaaaaaaaaaaa" "t1").2
         1 "intro" "lion" "aaaaaaaaaaaaaaaaaaaa" "t2").2 1 "intro" "aaaaaaaaaaaaaaaaaaaa" =
       listPostReactionSnapshot [] 1 "intro" "aaaaaaaaaaaaaaaaaaaa") :=
  ⟨⟨by decide, by decide, rfl⟩,
   reaction_toggle_roundtrip [] 1 "intro" "lion" "aaaaaaaaaaaaaaaaaaaa" "t1" "t2"
     (by decide) (by decide) rfl⟩

theorem snapshotEntries_keys (counts : List (String × Int)) (sel : List String) :
    (snapshotEntries counts sel).map (fun e => e.key) =
      ["lion", "dragon", "hummingbird", "deer", "eagle", "wolf", "unicorn", "phoenix", "orca",
       "fire", "rocket", "spark", "mindblown", "respect"] := rfl

theorem REACTION_PRESETS_keys :
    REACTION_PRESETS.map (fun p => p.key) =
      ["lion", "dragon", "hummingbird", "deer", "eagle", "wolf", "unicorn", "phoenix", "orca",
       "fire", "rocket", "spark", "mindblown", "respect"] := rfl

/-- C5: the snapshot lists all presets sorted by count descending with ties
broken by declaration order (`orderIndex`), deterministically; and the
concrete counts rocket 5, dragon 3, lion 1 yield exactly rocket, dragon,
lion followed by the remaining presets in declared order. -/
theorem reaction_snapshot_order_deterministic :
    (∀ (counts : List (String × Int)) (sel : List String),
      ((buildReactionSnapshot counts sel).items.map (fun i => i.key)).Perm
        (REACTION_PRESETS.map (fun p => p.key)) ∧
      (buildReactionSnapshot counts sel).items.Pairwise (fun a b => b.count ≤ a.count) ∧
      (List.insertionSort snapshotEntryLE (snapshotEntries counts sel)).Pairwise
        snapshotEntryLE ∧
      (buildReactionSnapshot counts sel).items =
        (List.insertionSort snapshotEntryLE (snapshotEntries counts sel)).map entryToItem) ∧
    ((buildReactionSnapshot [("rocket", 5), ("dragon", 3), ("lion", 1)] []).items.map
        (fun i => i.key) =
      ["rocket", "dragon", "lion", "hummingbird", "deer", "eagle", "wolf", "unicorn", "phoenix",
       "orca", "fire", "spark", "mindblown", "respect"]) := by
  have hitems : ∀ (counts : List (String × Int)) (sel : List String),
      (buildReactionSnapshot counts sel).items =
        (List.insertionSort snapshotEntryLE (snapshotEntries counts sel)).map entryToItem := by
    intro counts sel
    simp only [buildReactionSnapshot]
  constructor
  · intro counts sel
    have hsorted : (List.insertionSort snapshotEntryLE (snapshotEntries counts sel)).Pairwise
        snapshotEntryLE :=
      List.sorted_insertionSort snapshotEntryLE (snapshotEntries counts sel)
    refine ⟨?_, ?_, hsorted, hitems counts sel⟩
    · have hperm : ((List.insertionSort snapshotEntryLE (snapshotEntries counts sel)).map
          (fun e => e.key)).Perm ((snapshotEntries counts sel).map (fun e => e.key)) :=
        (List.perm_insertionSort snapshotEntryLE (snapshotEntries counts sel)).map _
      have hkeys : (buildReactionSnapshot counts sel).items.map (fun i => i.key) =
          (List.insertionSort snapshotEntryLE (snapshotEntries counts sel)).map
            (fun e => e.key) := by
        rw [hitems counts sel, List.map_map]
        rfl
      rw [hkeys, REACTION_PRESETS_keys, ← snapshotEntries_keys counts sel]
      exact hperm
    · rw [hitems counts sel]
      exact hsorted.map entryToItem (fun a b h => by
        rcases h with h | ⟨h, _⟩
        · exact le_of_lt h
        · exact le_of_eq h.symm)
  · decide

/-! ## Page-view counter and the `POST /api/view` handler tail -/

/-- `HOME_VIEW_KEY`. -/
def HOME_VIEW_KEY : String := "__home__"

/-- `normalizeViewResourceType(value)`. -/
def normalizeViewResourceType (v : String) : String :=
  let t := jsLower (jsTrim v)
  if t = "home" then "home" else "post"

/-- `normalizeViewResourceKey(resourceType, value)`. -/
def normalizeViewResourceKey (resourceType v : String) : String :=
  if resourceType = "home" then HOME_VIEW_KEY
  else
    let slug := jsLower (jsTrim v)
    if slug = "" then ""
    else if 120 < slug.data.length then jsSlice slug 120
    else slug

/-- One row of the `page_views` table (sans its key columns). -/
structure PageViewRow where
  viewCount : Int
  updatedAt : String
deriving DecidableEq

/-- The `page_views` table, keyed by `(site_id, resource_type, resource_key)`. -/
abbrev ViewKey := Int × String × String

abbrev ViewStore := List (ViewKey × PageViewRow)

def lookupView (views : ViewStore) (k : ViewKey) : Option PageViewRow :=
  (views.find? (fun p => decide (p.1 = k))).map (fun p => p.2)

def upsertView (views : ViewStore) (k : ViewKey) (v : PageViewRow) : ViewStore :=
  (k, v) :: views.filter (fun p => !(decide (p.1 = k)))

/-- `incrementPageViewCount(env, siteId, resourceType, resourceKey)`: upsert
`view_count + 1` (or a fresh row at 1) and re-read the stored count. -/
def incrementPageViewCount (views : ViewStore) (siteId : Int)
    (resourceType resourceKey nowIso : String) : Int × ViewStore :=
  let normalizedType := normalizeViewResourceType resourceType
  let normalizedKey := normalizeViewResourceKey normalizedType resourceKey
  if normalizedKey = "" then (0, views)
  else
    let k : ViewKey := (siteId, normalizedType, normalizedKey)
    let newCount := ((lookupView views k).map PageViewRow.viewCount).getD 0 + 1
    let views' := upsertView views k { viewCount := newCount, updatedAt := nowIso }
    (max (((lookupView views' k).map PageViewRow.viewCount).getD 0) 0, views')

/-- `listPageViewCounts(env, siteId, resourceType, resourceKeys)`: the batch
read; missing keys are absent from the result map. -/
def listPageViewCounts (views : ViewStore) (siteId : Int) (resourceType : String)
    (resourceKeys : List String) : List (String × Int) :=
  let normalizedType := normalizeViewResourceType resourceType
  let uniqueKeys := dedupFirst
    ((resourceKeys.map (normalizeViewResourceKey normalizedType)).filter (fun k => k != ""))
  uniqueKeys.foldl
    (fun m k =>
      match lookupView views (siteId, normalizedType, k) with
      | none => m
      | some row => m ++ [(k, max row.viewCount 0)])
    []

/-- The JSON reply of the `POST /api/view` handler (the fields the claims
observe). -/
structure ViewResponse where
  status : Nat
  ok : Bool
  throttled : Bool
  count : Int
deriving DecidableEq

/-- The tail of the `POST /api/view` handler (after site and post
resolution): rate-limit `consume`, then either report the current count
(throttled) or increment. -/
def handleViewIncrement (rl : RateStore) (views : ViewStore) (nowMs : Int)
    (clientIp siteSlug : String) (siteId : Int) (resourceType resourceKey nowIso : String) :
    ViewResponse × RateStore × ViewStore :=
  let rateKey := clientIp ++ ":" ++ siteSlug ++ ":view:" ++ resourceType ++ ":" ++ resourceKey
  let step := consumeRateLimit rl nowMs rateKey 10000 2
  if step.1.allowed = false then
    let viewMap := listPageViewCounts views siteId resourceType [resourceKey]
    let currentCount := max ((lookupA viewMap resourceKey).getD 0) 0
    ({ status := 200, ok := true, throttled := true, count := currentCount }, step.2, views)
  else
    let inc := incrementPageViewCount views siteId resourceType resourceKey nowIso
    ({ status := 200, ok := true, throttled := false, count := inc.1 }, step.2, inc.2)

theorem listPageViewCounts_single (views : ViewStore) (siteId : Int)
    (resourceType resourceKey : String)
    (hkey : normalizeViewResourceKey (normalizeViewResourceType resourceType) resourceKey =
      resourceKey)
    (hne : resourceKey ≠ "") :
    listPageViewCounts views siteId resourceType [resourceKey] =
      match lookupView views (siteId, normalizeViewResourceType resourceType, resourceKey) with
      | none => []
      | some row => [(resourceKey, max row.viewCount 0)] := by
  have hbne : (resourceKey != "") = true := by simp [hne]
  simp only [listPageViewCounts, List.map, hkey, List.filter, hbne, dedupFirst, List.foldl,
    List.contains_nil, Bool.false_eq_true, if_false, List.nil_append]

/-- C6: when the upstream rate-limit `consume` for a view increment returns
`allowed = false`, the handler still answers with HTTP 200 (`ok = true`,
`throttled = true`), returns the currently stored count unincremented, and
leaves the `page_views` table unchanged. -/
theorem view_throttled_returns_current_count (rl : RateStore) (views : ViewStore) (nowMs : Int)
    (clientIp siteSlug : String) (siteId : Int) (resourceType resourceKey nowIso : String)
    (hkey : normalizeViewResourceKey (normalizeViewResourceType resourceType) resourceKey =
      resourceKey)
    (hne : resourceKey ≠ "")
    (hdenied : (consumeRateLimit rl nowMs
      (clientIp ++ ":" ++ siteSlug ++ ":view:" ++ resourceType ++ ":" ++ resourceKey)
      10000 2).1.allowed = false) :
    handleViewIncrement rl views nowMs clientIp siteSlug siteId resourceType resourceKey nowIso =
      ({ status := 200, ok := true, throttled := true,
         count := max (((lookupView views
           (siteId, normalizeViewResourceType resourceType, resourceKey)).map
             PageViewRow.viewCount).getD 0) 0 },
       (consumeRateLimit rl nowMs
         (clientIp ++ ":" ++ siteSlug ++ ":view:" ++ resourceType ++ ":" ++ resourceKey)
         10000 2).2,
       views) := by
  rw [handleViewIncrement]
  simp only [hdenied, if_true, listPageViewCounts_single views siteId resourceType resourceKey
    hkey hne]
  rcases hl : lookupView views (siteId, normalizeViewResourceType resourceType, resourceKey)
    with _ | row
  · simp [lookupA]
  · have hlk : lookupA [(resourceKey, max row.viewCount 0)] resourceKey =
        some (max row.viewCount 0) := by
      simp [lookupA, List.find?]
    have hmax : max (max row.viewCount 0) 0 = max row.viewCount 0 := by
      rw [max_assoc, max_self]
    simp only [hlk, Option.map_some', Option.getD_some, hmax]

/-- Closed witness for `view_throttled_returns_current_count`: a full window
row denies the consume and the stored count 7 is reported unchanged. -/
theorem view_throttled_returns_current_count_witness :
    (normalizeViewResourceKey (normalizeViewResourceType "post") "hello" = "hello" ∧
     "hello" ≠ "" ∧
     (consumeRateLimit [("9.9.9.9:alice:view:post:hello",
        { windowStartMs := 0, attempts := 2, updatedAtMs := 0 })] 0
        ("9.9.9.9" ++ ":" ++ "alice" ++ ":view:" ++ "post" ++ ":" ++ "hello")
        10000 2).1.allowed = false) ∧
    handleViewIncrement
      [("9.9.9.9:alice:view:post:hello", { windowStartMs := 0, attempts := 2, updatedAtMs := 0 })]
      [((1, "post", "hello"), { viewCount := 7, updatedAt := "t" })]
      0 "9.9.9.9" "alice" 1 "post" "hello" "now" =
      ({ status := 200, ok := true, throttled := true,
         count := max ((((lookupView
           [((1, "post", "hello"), { viewCount := 7, updatedAt := "t" })]
           (1, normalizeViewResourceType "post", "hello")).map
             PageViewRow.viewCount).getD 0)) 0 },
       (consumeRateLimit
         [("9.9.9.9:alice:view:post:hello",
           { windowStartMs := 0, attempts := 2, updatedAtMs := 0 })] 0
         ("9.9.9.9" ++ ":" ++ "alice" ++ ":view:" ++ "post" ++ ":" ++ "hello")
         10000 2).2,
       [((1, "post", "hello"), { viewCount := 7, updatedAt := "t" })]) :=
  ⟨⟨by decide, by decide, by decide⟩,
   view_throttled_returns_current_count _ _ 0 "9.9.9.9" "alice" 1 "post" "hello" "now"
     (by decide) (by decide) (by decide)⟩

/-! ## Comment listing (`listPostComments`) -/

/-- One row of the `comments` table. -/
structure CommentRow where
  id : Int
  siteId : Int
  postSlug : String
  authorName : String
  authorSiteSlug : String
  content : String
  createdAt : String
deriving DecidableEq

abbrev CommentStore := List CommentRow

def COMMENTS_PAGE_SIZE : Int := 20

/-- Lexicographic comparison of character lists (the SQLite text collation
on UTF-8; code-point order equals byte order). -/
def charListLe : List Char → List Char → Bool
  | [], _ => true
  | _ :: _, [] => false
  | a :: as, b :: bs => if a = b then charListLe as bs else decide (a < b)

/-- `ORDER BY created_at DESC` as the order it induces on rows. -/
def commentDescLE (a b : CommentRow) : Prop :=
  charListLe b.createdAt.data a.createdAt.data = true

instance : DecidableRel commentDescLE := fun a b =>
  show Decidable (charListLe b.createdAt.data a.createdAt.data = true) from inferInstance

/-- `Math.ceil(a / b)` for a non-negative numerator and positive
denominator. -/
def intCeilDiv (a b : Int) : Int := (a + b - 1) / b

/-- The page object returned by `listPostComments`. -/
structure CommentsPage where
  comments : List CommentRow
  total : Int
  page : Int
  totalPages : Int
  pageSize : Int
deriving DecidableEq

/-- `listPostComments(env, siteId, postSlug, page, pageSize)`. -/
def listPostComments (db : CommentStore) (siteId : Int) (postSlug : String)
    (page pageSize : Int) : CommentsPage :=
  let safePageSize := min (max (if pageSize = 0 then COMMENTS_PAGE_SIZE else pageSize) 1) 80
  let safePage := max (if page = 0 then 1 else page) 1
  let rows := db.filter (fun c => (c.siteId == siteId) && (c.postSlug == postSlug))
  let total := max (Int.ofNat rows.length) 0
  let totalPages := max 1 (intCeilDiv total safePageSize)
  let boundedPage := min safePage totalPages
  let offset := (boundedPage - 1) * safePageSize
  let sorted := List.insertionSort commentDescLE rows
  { comments := (sorted.drop offset.toNat).take safePageSize.toNat,
    total := total,
    page := boundedPage,
    totalPages := totalPages,
    pageSize := safePageSize }

/-- C9: the returned page number is clamped into `[1, totalPages]`, the
operation is total (never errors) on out-of-range page numbers, and
`totalPages ≥ 1` even with zero comments; concretely, `page = 9999` against
zero comments and against a single-page result both return page 1. -/
theorem comments_page_clamped :
    (∀ (db : CommentStore) (siteId : Int) (postSlug : String) (page pageSize : Int),
      1 ≤ (listPostComments db siteId postSlug page pageSize).page ∧
      (listPostComments db siteId postSlug page pageSize).page ≤
        (listPostComments db siteId postSlug page pageSize).totalPages ∧
      1 ≤ (listPostComments db siteId postSlug page pageSize).totalPages) ∧
    ((listPostComments [] 1 "intro" 9999 20).page = 1 ∧
     (listPostComments [] 1 "intro" 9999 20).totalPages = 1 ∧
     (listPostComments
        [{ id := 1, siteId := 1, postSlug := "intro", authorName := "a",
           authorSiteSlug := "", content := "hi", createdAt := "t" }]
        1 "intro" 9999 20).page = 1) := by
  constructor
  · intro db siteId postSlug page pageSize
    simp only [listPostComments]
    have h1 : (1 : Int) ≤ max 1 (intCeilDiv (max (Int.ofNat (db.filter (fun c =>
        (c.siteId == siteId) && (c.postSlug == postSlug))).length) 0)
        (min (max (if pageSize = 0 then COMMENTS_PAGE_SIZE else pageSize) 1) 80)) :=
      le_max_left _ _
    have h2 : (1 : Int) ≤ max (if page = 0 then 1 else page) 1 := le_max_right _ _
    refine ⟨le_min h2 h1, min_le_right _ _, h1⟩
  · refine ⟨by decide, by decide, by decide⟩

/-! ## Whitespace and trim facts used by the notification pipeline -/

theorem mkStr_eq_empty_iff (l : List Char) : String.mk l = "" ↔ l = [] := by
  constructor
  · intro h
    have := congrArg String.data h
    simpa using this
  · rintro rfl
    rfl

theorem isWhitespace_eq_false_of_upper (c : Char) (h1 : 65 ≤ c.toNat) (h2 : c.toNat ≤ 90) :
    c.isWhitespace = false := by
  rw [← Char.ofNat_toNat c]
  generalize hg : c.toNat = m at h1 h2
  interval_cases m <;> decide

/-- Basic-latin lowercasing preserves whitespace-ness. -/
theorem isWhitespace_toLower (c : Char) : (Char.toLower c).isWhitespace = c.isWhitespace := by
  by_cases h : c.toNat ≥ 65 ∧ c.toNat ≤ 90
  · have hup : c.isWhitespace = false := isWhitespace_eq_false_of_upper c h.1 h.2
    have hdef : Char.toLower c = Char.ofNat (c.toNat + 32) := by
      simp only [Char.toLower]
      rw [if_pos h]
    rw [hdef, hup]
    have h1 : 97 ≤ c.toNat + 32 := by omega
    have h2 : c.toNat + 32 ≤ 122 := by omega
    generalize hg : c.toNat + 32 = m at h1 h2 ⊢
    interval_cases m <;> decide
  · simp only [Char.toLower]
    rw [if_neg h]

theorem trimChars_eq_nil_iff (l : List Char) :
    trimChars l = [] ↔ ∀ c ∈ l, c.isWhitespace := by
  rw [trimChars]
  constructor
  · intro h c hc
    have h1 : (l.dropWhile Char.isWhitespace).reverse.dropWhile Char.isWhitespace = [] := by
      simpa using h
    have h2 := List.dropWhile_eq_nil_iff.mp h1
    have h3 : ∀ x ∈ l.dropWhile Char.isWhitespace, x.isWhitespace = true := by
      intro x hx
      exact h2 x (List.mem_reverse.mpr hx)
    have hsplit := List.takeWhile_append_dropWhile (p := Char.isWhitespace) (l := l)
    rw [← hsplit] at hc
    rcases List.mem_append.mp hc with h4 | h4
    · exact List.mem_takeWhile_imp h4
    · exact h3 c h4
  · intro h
    have : l.dropWhile Char.isWhitespace = [] := List.dropWhile_eq_nil_iff.mpr h
    simp [this]

theorem trimChars_ne_nil (l : List Char) (c : Char) (hc : c ∈ l)
    (hw : c.isWhitespace = false) : trimChars l ≠ [] := by
  intro h
  have := (trimChars_eq_nil_iff l).mp h c hc
  rw [hw] at this
  cases this

/-- A nonempty trimmed list contains a non-whitespace character. -/
theorem trimChars_mem_not_ws (l : List Char) (h : trimChars l ≠ []) :
    ∃ c ∈ trimChars l, c.isWhitespace = false := by
  rw [trimChars] at h ⊢
  have hyne : (l.dropWhile Char.isWhitespace).reverse.dropWhile Char.isWhitespace ≠ [] := by
    intro he
    rw [he] at h
    exact h rfl
  refine ⟨((l.dropWhile Char.isWhitespace).reverse.dropWhile Char.isWhitespace).head hyne,
    List.mem_reverse.mpr (List.head_mem hyne), ?_⟩
  exact List.head_dropWhile_not Char.isWhitespace _ hyne

/-- The trim/lowercase chain applied a second time (with the 120-character
slice of `createSiteNotification`) cannot turn a nonempty normalized slug
into the empty string. -/
theorem slugChain_ne_empty (s : String) (h : jsLower (jsTrim s) ≠ "") :
    jsSlice (jsLower (jsTrim (jsLower (jsTrim s)))) 120 ≠ "" := by
  have hmap : (trimChars s.data).map Char.toLower ≠ [] := by
    intro he
    exact h ((mkStr_eq_empty_iff _).mpr (by simpa [jsLower, jsTrim] using he))
  have htrim : trimChars s.data ≠ [] := by
    intro he
    rw [he] at hmap
    exact hmap rfl
  obtain ⟨c, hc, hw⟩ := trimChars_mem_not_ws s.data htrim
  have hc' : Char.toLower c ∈ (trimChars s.data).map Char.toLower :=
    List.mem_map.mpr ⟨c, hc, rfl⟩
  have hw' : (Char.toLower c).isWhitespace = false := by
    rw [isWhitespace_toLower]
    exact hw
  have htrim2 : trimChars ((trimChars s.data).map Char.toLower) ≠ [] :=
    trimChars_ne_nil _ _ hc' hw'
  intro he
  have hdata : ((trimChars ((trimChars s.data).map Char.toLower)).map Char.toLower).take 120
      = [] := by
    simpa [jsSlice, jsLower, jsTrim, mkStr_eq_empty_iff] using he
  rcases List.take_eq_nil_iff.mp hdata with h' | h'
  · exact absurd h' (by norm_num)
  · exact htrim2 (by simpa using h')

/-! ## Notification pipeline -/

/-- `sanitizeNotifyEventType(value)`. -/
def sanitizeNotifyEventType (v : String) : String :=
  let t := jsLower (jsTrim v)
  if t = "comment" then "comment"
  else if t = "reaction" then "reaction"
  else ""

/-- The character class `[\u0000-\u001f\u007f"'<>` + backtick `]` removed by
`sanitizeNotificationPath`. -/
def isNotifPathBadChar (c : Char) : Bool :=
  (c.toNat ≤ 31) || (c.toNat = 127) || (c.toNat = 34) || (c.toNat = 39) ||
  (c.toNat = 60) || (c.toNat = 62) || (c.toNat = 96)

def strStartsWithSlash (s : String) : Bool :=
  match s.data with
  | c :: _ => c = '/'
  | [] => false

/-- `sanitizeNotificationPath(value)`. -/
def sanitizeNotificationPath (v : String) : String :=
  let rawPath := jsTrim v
  if strStartsWithSlash rawPath = false then "/"
  else
    let path := jsSlice (String.mk (rawPath.data.filter (fun c => !(isNotifPathBadChar c)))) 320
    if strStartsWithSlash path then path else "/"

/-- `value.replace(/\r\n/g, "\n")`. -/
def stripCrLf : List Char → List Char
  | [] => []
  | '\r' :: '\n' :: rest => '\n' :: stripCrLf rest
  | c :: rest => c :: stripCrLf rest

/-- `sanitizeNotificationPreview(value)`. -/
def sanitizeNotificationPreview (v : String) : String :=
  jsSlice (jsTrim (String.mk (stripCrLf v.data))) 320

/-- `sanitizeName(value)`. -/
def sanitizeName (v : String) : String := jsSlice (jsTrim v) 60

/-- `sanitizeTitle(value)`. -/
def sanitizeTitle (v : String) : String := jsSlice (jsTrim v) 120

def isSlugChar (c : Char) : Bool :=
  (('a' ≤ c) && (c ≤ 'z')) || (('0' ≤ c) && (c ≤ '9')) || (c = '-')

def hasDoubleDash : List Char → Bool
  | '-' :: '-' :: _ => true
  | _ :: rest => hasDoubleDash rest
  | [] => false

/-- `sanitizeOptionalSiteSlug(value)`. -/
def sanitizeOptionalSiteSlug (v : String) : String :=
  let slug := jsLower (jsTrim v)
  if slug = "" then ""
  else if slug.data.length < 2 ∨ 30 < slug.data.length then ""
  else if ¬ (slug.data.all isSlugChar = true) then ""
  else if slug.data.head? = some '-' ∨ slug.data.getLast? = some '-' ∨
    hasDoubleDash slug.data = true then ""
  else slug

/-- `/^-?\d{5,20}$/`. -/
def telegramChatIdOk (l : List Char) : Bool :=
  match l with
  | '-' :: rest => (decide (5 ≤ rest.length)) && (decide (rest.length ≤ 20)) &&
      rest.all Char.isDigit
  | _ => (decide (5 ≤ l.length)) && (decide (l.length ≤ 20)) && l.all Char.isDigit

/-- `sanitizeTelegramChatId(value)`. -/
def sanitizeTelegramChatId (v : String) : String :=
  let chatId := jsTrim v
  if chatId = "" then ""
  else if telegramChatIdOk chatId.data then chatId
  else ""

def isTokenTailChar (c : Char) : Bool := c.isAlphanum || (c = '_') || (c = '-')

/-- `/^\d{6,14}:[A-Za-z0-9_-]{20,140}$/`. -/
def telegramBotTokenOk (l : List Char) : Bool :=
  let idPart := l.takeWhile (fun c => decide (c ≠ ':'))
  match l.drop idPart.length with
  | ':' :: tail =>
    (decide (6 ≤ idPart.length)) && (decide (idPart.length ≤ 14)) &&
    idPart.all Char.isDigit &&
    (decide (20 ≤ tail.length)) && (decide (tail.length ≤ 140)) && tail.all isTokenTailChar
  | _ => false

/-- `sanitizeTelegramBotToken(value)`. -/
def sanitizeTelegramBotToken (v : String) : String :=
  let token := jsTrim v
  if token = "" then ""
  else if telegramBotTokenOk token.data then token
  else ""

/-- The stored `site_telegram_settings` row. -/
structure SiteTelegramSettingsRow where
  enabled : Int
  notifyComments : Int
  notifyReactions : Int
  telegramChatId : String
  telegramBotTokenEnc : String
  updatedAt : String
deriving DecidableEq

/-- The resolved settings object returned by `getSiteNotifySettings`. -/
structure NotifySettings where
  enabled : Bool
  notifyComments : Bool
  notifyReactions : Bool
  telegramChatId : String
  hasBotToken : Bool
  telegramBotToken : String
  updatedAt : String
deriving DecidableEq

/-- `defaultSiteNotifySettings()`. -/
def defaultSiteNotifySettings : NotifySettings :=
  { enabled := false, notifyComments := true, notifyReactions := true, telegramChatId := "",
    hasBotToken := false, telegramBotToken := "", updatedAt := "" }

/-- `getSiteNotifySettings(env, siteId, {includeBotToken})`.  `decryptedToken`
stands for the result of `decryptSensitiveValue` on the stored ciphertext
(the empty string when decryption fails, which the source catches). -/
def getSiteNotifySettings (row : Option SiteTelegramSettingsRow) (decryptedToken : String)
    (includeBotToken : Bool) : NotifySettings :=
  match row with
  | none => defaultSiteNotifySettings
  | some row =>
    { enabled := row.enabled == 1,
      notifyComments := row.notifyComments != 0,
      notifyReactions := row.notifyReactions != 0,
      telegramChatId := sanitizeTelegramChatId row.telegramChatId,
      hasBotToken := row.telegramBotTokenEnc ≠ "",
      telegramBotToken := sanitizeTelegramBotToken
        (if includeBotToken ∧ row.telegramBotTokenEnc ≠ "" then decryptedToken else ""),
      updatedAt := row.updatedAt }

/-- One row of the `site_notifications` table. -/
structure NotificationRow where
  siteId : Int
  eventType : String
  postSlug : String
  postTitle : String
  actorName : String
  actorSiteSlug : String
  contentPreview : String
  reactionKey : String
  reactionLabel : String
  targetPath : String
  createdAt : String
deriving DecidableEq

/-- The event payload handed to the pipeline. -/
structure NotifyPayload where
  eventType : String
  postSlug : String
  postTitle : String
  actorName : String
  actorSiteSlug : String
  contentPreview : String
  reactionKey : String
  reactionLabel : String
  targetPath : String
  createdAt : String
deriving DecidableEq

def isUriUnreserved (c : Char) : Bool :=
  c.isAlphanum || (c = '-') || (c = '_') || (c = '.') || (c = '!') || (c = '~') ||
  (c = '*') || (c.toNat = 39) || (c = '(') || (c = ')')

def percentHexDigit (n : Nat) : Char :=
  if n < 10 then Char.ofNat (48 + n) else Char.ofNat (55 + n)

/-- `encodeURIComponent(value)`: percent-encode the UTF-8 bytes of every
reserved character. -/
def encodeURIComponent (s : String) : String :=
  String.mk (s.data.flatMap (fun c =>
    if isUriUnreserved c then [c]
    else (utf8EncodeChar c.toNat).flatMap
      (fun b => ['%', percentHexDigit (b / 16), percentHexDigit (b % 16)])))

/-- `createSiteNotification(env, siteId, payload)`: validate, sanitize and
insert one `site_notifications` row; returns the inserted row (`none` when
rejected) with the updated table. -/
def createSiteNotification (rows : List NotificationRow) (siteId : Int) (p : NotifyPayload)
    (nowIso : String) : Option NotificationRow × List NotificationRow :=
  let eventType := sanitizeNotifyEventType p.eventType
  if eventType = "" then (none, rows)
  else
    let postSlug := jsSlice (jsLower (jsTrim p.postSlug)) 120
    if postSlug = "" then (none, rows)
    else
      let now := if p.createdAt = "" then nowIso else p.createdAt
      let postTitle := sanitizeTitle (if p.postTitle = "" then postSlug else p.postTitle)
      let actorName := sanitizeName p.actorName
      let actorSiteSlug := sanitizeOptionalSiteSlug p.actorSiteSlug
      let contentPreview := sanitizeNotificationPreview p.contentPreview
      let reactionKey := sanitizeReactionKey p.reactionKey
      let reactionLabel :=
        match reactionPresetFor reactionKey with
        | some preset => preset.icon ++ " " ++ preset.label
        | none => sanitizeNotificationPreview p.reactionLabel
      let targetPath := sanitizeNotificationPath
        (if p.targetPath = "" then "/" ++ encodeURIComponent postSlug else p.targetPath)
      let row : NotificationRow :=
        { siteId := siteId, eventType := eventType, postSlug := postSlug,
          postTitle := postTitle, actorName := actorName, actorSiteSlug := actorSiteSlug,
          contentPreview := contentPreview, reactionKey := reactionKey,
          reactionLabel := reactionLabel, targetPath := targetPath, createdAt := now }
      (some row, rows ++ [row])

/-- One `sendMessage` call to the Telegram relay. -/
structure TelegramCall where
  botToken : String
  chatId : String
  text : String
deriving DecidableEq

/-- `buildSiteNotificationMessage(event, site, baseDomain)`. -/
def buildSiteNotificationMessage (event : NotifyPayload) (siteSlug baseDomain nowIso : String) :
    String :=
  let fullSite := siteSlug ++ "." ++ baseDomain
  let postUrl := "https://" ++ fullSite ++ "/" ++ encodeURIComponent event.postSlug
  let timeLine := if event.createdAt = "" then nowIso else event.createdAt
  if sanitizeNotifyEventType event.eventType = "reaction" then
    let reactionLine :=
      if event.reactionLabel = "" then "反應：新點贊" else "反應：" ++ event.reactionLabel
    "🔔 新點贊通知" ++ "\n" ++ "站點：" ++ fullSite ++ "\n" ++ "文章：" ++
      (if event.postTitle = "" then event.postSlug else event.postTitle) ++ "\n" ++
      reactionLine ++ "\n" ++ "連結：" ++ postUrl ++ "\n" ++ "時間：" ++ timeLine
  else
    let actorLine :=
      if event.actorSiteSlug = "" then
        (if event.actorName = "" then "匿名" else event.actorName)
      else event.actorName ++ "（" ++ event.actorSiteSlug ++ "." ++ baseDomain ++ "）"
    "💬 新留言通知" ++ "\n" ++ "站點：" ++ fullSite ++ "\n" ++ "文章：" ++
      (if event.postTitle = "" then event.postSlug else event.postTitle) ++ "\n" ++
      "留言者：" ++ actorLine ++ "\n" ++ "內容：" ++
      (if event.contentPreview = "" then "(無文字)" else event.contentPreview) ++ "\n" ++
      "連結：" ++ postUrl ++ "#comments" ++ "\n" ++ "時間：" ++ timeLine

/-- The normalized event built at the top of `queueSiteNotificationEvent`. -/
def queueEvent (p : NotifyPayload) (nowIso : String) : NotifyPayload :=
  { eventType := sanitizeNotifyEventType p.eventType,
    postSlug := jsLower (jsTrim p.postSlug),
    postTitle := sanitizeTitle
      (if p.postTitle = "" then (if p.postSlug = "" then "" else p.postSlug) else p.postTitle),
    actorName := sanitizeName p.actorName,
    actorSiteSlug := sanitizeOptionalSiteSlug p.actorSiteSlug,
    contentPreview := sanitizeNotificationPreview p.contentPreview,
    reactionKey := sanitizeReactionKey p.reactionKey,
    reactionLabel := sanitizeNotificationPreview p.reactionLabel,
    targetPath := sanitizeNotificationPath
      (if p.targetPath = "" then "/" ++ encodeURIComponent (jsLower (jsTrim p.postSlug))
       else p.targetPath),
    createdAt := if p.createdAt = "" then nowIso else p.createdAt }

/-- `queueSiteNotificationEvent(env, ctx, site, payload)`: returns the updated
`site_notifications` table and the outbound relay calls performed by the
detached task (the probabilistic retention sweep touches neither). -/
def queueSiteNotificationEvent (rows : List NotificationRow)
    (settingsRow : Option SiteTelegramSettingsRow) (decryptedToken : String) (siteId : Int)
    (siteSlug baseDomainRaw : String) (p : NotifyPayload) (nowIso : String) :
    List NotificationRow × List TelegramCall :=
  let event := queueEvent p nowIso
  if event.eventType = "" ∨ event.postSlug = "" then (rows, [])
  else
    let rows' := (createSiteNotification rows siteId event nowIso).2
    let notifySettings := getSiteNotifySettings settingsRow decryptedToken true
    if notifySettings.enabled = false ∨ notifySettings.telegramChatId = "" ∨
        notifySettings.telegramBotToken = "" then (rows', [])
    else if event.eventType = "comment" ∧ notifySettings.notifyComments = false then (rows', [])
    else if event.eventType = "reaction" ∧ notifySettings.notifyReactions = false then (rows', [])
    else
      let baseDomain := jsLower (if baseDomainRaw = "" then "bdfz.net" else baseDomainRaw)
      let message := buildSiteNotificationMessage event siteSlug baseDomain nowIso
      (rows', [{ botToken := notifySettings.telegramBotToken,
                 chatId := notifySettings.telegramChatId, text := message }])

theorem queueEvent_eventType (p : NotifyPayload) (nowIso : String) :
    (queueEvent p nowIso).eventType = sanitizeNotifyEventType p.eventType := rfl

theorem queueEvent_postSlug (p : NotifyPayload) (nowIso : String) :
    (queueEvent p nowIso).postSlug = jsLower (jsTrim p.postSlug) := rfl

theorem sanitizeNotifyEventType_cases (s : String) :
    sanitizeNotifyEventType s = "" ∨ sanitizeNotifyEventType s = "comment" ∨
    sanitizeNotifyEventType s = "reaction" := by
  rw [sanitizeNotifyEventType]
  split_ifs <;> simp

theorem sanitizeNotifyEventType_idem (s : String) :
    sanitizeNotifyEventType (sanitizeNotifyEventType s) = sanitizeNotifyEventType s := by
  rcases sanitizeNotifyEventType_cases s with h | h | h <;> rw [h] <;> rfl

theorem createSiteNotification_length (rows : List NotificationRow) (siteId : Int)
    (p : NotifyPayload) (nowIso : String)
    (he : sanitizeNotifyEventType p.eventType ≠ "")
    (hp : jsSlice (jsLower (jsTrim p.postSlug)) 120 ≠ "") :
    (createSiteNotification rows siteId p nowIso).2.length = rows.length + 1 := by
  rw [createSiteNotification]
  simp only [if_neg he, if_neg hp, List.length_append, List.length_cons, List.length_nil]

/-- The condition under which the pipeline reaches the outbound relay call:
`enabled`, a chat id, a decryptable bot token, and the per-event-type toggle. -/
def telegramRelayGate (s : NotifySettings) (eventType : String) : Prop :=
  s.enabled = true ∧ s.telegramChatId ≠ "" ∧ s.telegramBotToken ≠ "" ∧
  (eventType = "comment" → s.notifyComments = true) ∧
  (eventType = "reaction" → s.notifyReactions = true)

instance (s : NotifySettings) (et : String) : Decidable (telegramRelayGate s et) :=
  show Decidable (_ ∧ _ ∧ _ ∧ _ ∧ _) from inferInstance

theorem queueSiteNotificationEvent_split (rows : List NotificationRow)
    (settingsRow : Option SiteTelegramSettingsRow) (decryptedToken : String) (siteId : Int)
    (siteSlug baseDomainRaw : String) (p : NotifyPayload) (nowIso : String)
    (het : sanitizeNotifyEventType p.eventType ≠ "")
    (hps : jsLower (jsTrim p.postSlug) ≠ "") :
    queueSiteNotificationEvent rows settingsRow decryptedToken siteId siteSlug baseDomainRaw
      p nowIso =
      ((createSiteNotification rows siteId (queueEvent p nowIso) nowIso).2,
       if telegramRelayGate (getSiteNotifySettings settingsRow decryptedToken true)
           (sanitizeNotifyEventType p.eventType) then
         [{ botToken := (getSiteNotifySettings settingsRow decryptedToken true).telegramBotToken,
            chatId := (getSiteNotifySettings settingsRow decryptedToken true).telegramChatId,
            text := buildSiteNotificationMessage (queueEvent p nowIso) siteSlug
              (jsLower (if baseDomainRaw = "" then "bdfz.net" else baseDomainRaw)) nowIso }]
       else []) := by
  rw [queueSiteNotificationEvent]
  rw [if_neg (by
    rw [queueEvent_eventType, queueEvent_postSlug]
    rintro (h | h)
    · exact het h
    · exact hps h)]
  rw [queueEvent_eventType]
  set s := getSiteNotifySettings settingsRow decryptedToken true with hsdef
  set ev := sanitizeNotifyEventType p.eventType with hev
  by_cases hg : telegramRelayGate s ev
  · obtain ⟨hen, hchat, htok, hcom, hreac⟩ := hg
    rw [if_neg (by
      rintro (h | h | h)
      · rw [hen] at h; cases h
      · exact hchat h
      · exact htok h)]
    rw [if_neg (by
      rintro ⟨h1, h2⟩
      rw [hcom h1] at h2; cases h2)]
    rw [if_neg (by
      rintro ⟨h1, h2⟩
      rw [hreac h1] at h2; cases h2)]
    rw [if_pos (show telegramRelayGate s ev from ⟨hen, hchat, htok, hcom, hreac⟩)]
  · rw [if_neg hg]
    by_cases hc1 : (s.enabled = false ∨ s.telegramChatId = "" ∨ s.telegramBotToken = "")
    · rw [if_pos hc1]
    · rw [if_neg hc1]
      push_neg at hc1
      have hen : s.enabled = true := by
        cases h : s.enabled
        · exact absurd h hc1.1
        · rfl
      have htog : ¬ ((ev = "comment" → s.notifyComments = true) ∧
          (ev = "reaction" → s.notifyReactions = true)) := by
        rintro ⟨hd, he2⟩
        exact hg ⟨hen, hc1.2.1, hc1.2.2, hd, he2⟩
      by_cases hc2 : (ev = "comment" ∧ s.notifyComments = false)
      · rw [if_pos hc2]
      · rw [if_neg hc2]
        have hc3 : ev = "reaction" ∧ s.notifyReactions = false := by
          rcases sanitizeNotifyEventType_cases p.eventType with h0 | hcm | hrc
          · exact absurd (hev.trans h0) het
          · exfalso
            rcases not_and_or.mp htog with hA | hB
            · rcases Classical.not_imp.mp hA with ⟨_, h2⟩
              refine hc2 ⟨hev.trans hcm, ?_⟩
              cases h : s.notifyComments
              · rfl
              · exact absurd h h2
            · rcases Classical.not_imp.mp hB with ⟨h1, _⟩
              rw [hev.trans hcm] at h1
              exact absurd h1 (by decide)
          · refine ⟨hev.trans hrc, ?_⟩
            rcases not_and_or.mp htog with hA | hB
            · rcases Classical.not_imp.mp hA with ⟨h1, _⟩
              rw [hev.trans hrc] at h1
              exact absurd h1 (by decide)
            · rcases Classical.not_imp.mp hB with ⟨_, h2⟩
              cases h : s.notifyReactions
              · rfl
              · exact absurd h h2
        rw [if_pos hc3]

/-- C3: for every enqueued event with a valid event type and post slug, one
`SiteNotification` row is persisted unconditionally, and an outbound relay
call is made if and only if `enabled` is true, a chat id and a decryptable
bot token are present, and the per-event-type toggle is on. -/
theorem notification_row_unconditional_relay_gated (rows : List NotificationRow)
    (settingsRow : Option SiteTelegramSettingsRow) (decryptedToken : String) (siteId : Int)
    (siteSlug baseDomainRaw : String) (p : NotifyPayload) (nowIso : String)
    (het : sanitizeNotifyEventType p.eventType ≠ "")
    (hps : jsLower (jsTrim p.postSlug) ≠ "") :
    (queueSiteNotificationEvent rows settingsRow decryptedToken siteId siteSlug baseDomainRaw
      p nowIso).1.length = rows.length + 1 ∧
    (queueSiteNotificationEvent rows settingsRow decryptedToken siteId siteSlug baseDomainRaw
      p nowIso).2.length =
      (if telegramRelayGate (getSiteNotifySettings settingsRow decryptedToken true)
          (sanitizeNotifyEventType p.eventType) then 1 else 0) := by
  rw [queueSiteNotificationEvent_split rows settingsRow decryptedToken siteId siteSlug
    baseDomainRaw p nowIso het hps]
  constructor
  · exact createSiteNotification_length rows siteId (queueEvent p nowIso) nowIso
      (by rw [queueEvent_eventType, sanitizeNotifyEventType_idem]; exact het)
      (by rw [queueEvent_postSlug]; exact slugChain_ne_empty p.postSlug hps)
  · by_cases hg : telegramRelayGate (getSiteNotifySettings settingsRow decryptedToken true)
        (sanitizeNotifyEventType p.eventType)
    · rw [if_pos hg, if_pos hg]
      rfl
    · rw [if_neg hg, if_neg hg]
      rfl

/-- Closed witness for `notification_row_unconditional_relay_gated`: a
`"reaction"` event with `notifyReactions = 0` persists a row while the relay
gate is off (zero calls). -/
theorem notification_row_unconditional_relay_gated_witness :
    (sanitizeNotifyEventType "reaction" ≠ "" ∧ jsLower (jsTrim "intro") ≠ "" ∧
     ¬ telegramRelayGate
        (getSiteNotifySettings
          (some { enabled := 1, notifyComments := 1, notifyReactions := 0,
                  telegramChatId := "123456789", telegramBotTokenEnc := "enc",
                  updatedAt := "" })
          "123456:aaaaaaaaaaaaaaaaaaaaaaaa" true)
        (sanitizeNotifyEventType "reaction")) ∧
    ((queueSiteNotificationEvent []
        (some { enabled := 1, notifyComments := 1, notifyReactions := 0,
                telegramChatId := "123456789", telegramBotTokenEnc := "enc", updatedAt := "" })
        "123456:aaaaaaaaaaaaaaaaaaaaaaaa" 42 "alice" "bdfz.net"
        { eventType := "reaction", postSlug := "intro", postTitle := "Intro", actorName := "",
          actorSiteSlug := "", contentPreview := "", reactionKey := "lion",
          reactionLabel := "🦁 獅王", targetPath := "", createdAt := "t" }
        "t").1.length = ([] : List NotificationRow).length + 1 ∧
     (queueSiteNotificationEvent []
        (some { enabled := 1, notifyComments := 1, notifyReactions := 0,
                telegramChatId := "123456789", telegramBotTokenEnc := "enc", updatedAt := "" })
        "123456:aaaaaaaaaaaaaaaaaaaaaaaa" 42 "alice" "bdfz.net"
        { eventType := "reaction", postSlug := "intro", postTitle := "Intro", actorName := "",
          actorSiteSlug := "", contentPreview := "", reactionKey := "lion",
          reactionLabel := "🦁 獅王", targetPath := "", createdAt := "t" }
        "t").2.length =
      (if telegramRelayGate
          (getSiteNotifySettings
            (some { enabled := 1, notifyComments := 1, notifyReactions := 0,
                    telegramChatId := "123456789", telegramBotTokenEnc := "enc",
                    updatedAt := "" })
            "123456:aaaaaaaaaaaaaaaaaaaaaaaa" true)
          (sanitizeNotifyEventType "reaction") then 1 else 0)) :=
  ⟨⟨by decide, by decide, by decide⟩,
   notification_row_unconditional_relay_gated []
     (some { enabled := 1, notifyComments := 1, notifyReactions := 0,
             telegramChatId := "123456789", telegramBotTokenEnc := "enc", updatedAt := "" })
     "123456:aaaaaaaaaaaaaaaaaaaaaaaa" 42 "alice" "bdfz.net"
     { eventType := "reaction", postSlug := "intro", postTitle := "Intro", actorName := "",
       actorSiteSlug := "", contentPreview := "", reactionKey := "lion",
       reactionLabel := "🦁 獅王", targetPath := "", createdAt := "t" }
     "t" (by decide) (by decide)⟩

/-! ## Actor identity resolver (`deriveIpActorToken`, `resolveReactorToken`)

`secret` stands for `env.SESSION_SECRET` and `randomToken` for the
`randomHex(16)` fallback drawn when no IP is available (or the digest fails
validation, which cannot happen for a SHA-256 hex digest). -/

/-- `deriveIpActorToken(request, env)`. -/
def deriveIpActorToken (ip ua secret randomToken : String) : String :=
  let ipTrimmed := jsTrim ip
  let uaTrimmed := jsTrim ua
  if ipTrimmed = "" then randomToken
  else
    let digest := sha256Hex (ipTrimmed ++ "|" ++ uaTrimmed ++ "|" ++ secret ++ "|reactor-ip-v1")
    if sanitizeActorToken digest = "" then randomToken else sanitizeActorToken digest

/-- `resolveReactorToken(request, env)`: the resolved token and
`shouldSetCookie`. -/
def resolveReactorToken (cookieToken ip ua secret randomToken : String) : String × Bool :=
  let existing := sanitizeActorToken cookieToken
  let ipToken := deriveIpActorToken ip ua secret randomToken
  if existing ≠ "" then
    if existing = ipToken then (ipToken, false)
    else
      let mixed := sha256Hex (existing ++ ":" ++ ipToken ++ ":reactor-mix-v1")
      ((if sanitizeActorToken mixed = "" then ipToken else sanitizeActorToken mixed), false)
  else (ipToken, true)

set_option maxRecDepth 100000 in
/-- C4 counterexample: with a fixed valid cookie token and fixed user agent,
two different request IPs resolve to different tokens — the mix re-hashes the
IP-derived token, so the cookie does not make the result IP-independent. -/
theorem resolveReactorToken_varies_with_ip_counterexample :
    sanitizeActorToken "aaaaaaaaaaaaaaaaaaaa" = "aaaaaaaaaaaaaaaaaaaa" ∧
    (resolveReactorToken "aaaaaaaaaaaaaaaaaaaa" "1.1.1.1" "agent" "server-secret" "r").1 ≠
      (resolveReactorToken "aaaaaaaaaaaaaaaaaaaa" "2.2.2.2" "agent" "server-secret" "r").1 := by
  constructor
  · decide
  · decide

/-- C4 (amended): the resolved token is a deterministic function of the
cookie token and the IP-derived token — two requests whose `deriveIpActorToken`
results coincide (same IP and user agent) resolve to the same token. -/
theorem resolveReactorToken_stable_for_same_ip_token
    (cookieToken ip1 ip2 ua1 ua2 secret r1 r2 : String)
    (h : deriveIpActorToken ip1 ua1 secret r1 = deriveIpActorToken ip2 ua2 secret r2) :
    resolveReactorToken cookieToken ip1 ua1 secret r1 =
      resolveReactorToken cookieToken ip2 ua2 secret r2 := by
  simp only [resolveReactorToken, h]

set_option maxRecDepth 100000 in
/-- Closed witness for `resolveReactorToken_stable_for_same_ip_token` at one
IP and user agent (the unused random fallbacks differ). -/
theorem resolveReactorToken_stable_for_same_ip_token_witness :
    deriveIpActorToken "1.1.1.1" "agent" "server-secret" "r1" =
      deriveIpActorToken "1.1.1.1" "agent" "server-secret" "r2" ∧
    resolveReactorToken "aaaaaaaaaaaaaaaaaaaa" "1.1.1.1" "agent" "server-secret" "r1" =
      resolveReactorToken "aaaaaaaaaaaaaaaaaaaa" "1.1.1.1" "agent" "server-secret" "r2" :=
  ⟨by decide,
   resolveReactorToken_stable_for_same_ip_token "aaaaaaaaaaaaaaaaaaaa" "1.1.1.1" "1.1.1.1"
     "agent" "agent" "server-secret" "r1" "r2" (by decide)⟩

end Stublogs
